/-
Verification of the SeerrBridge media-tracking frontend/gateway against its
natural-language specification.  Each section embeds one source file of the
repository as executable Lean definitions (JavaScript truthiness, nullish
coalescing and SQL NULL are modelled explicitly with Option; machine numbers
are Nat/Int, SQL decimal arithmetic is ℚ), and the theorems at the end of the
file settle the spec claims against those definitions.
-/
import Mathlib

set_option autoImplicit false

namespace UnifiedMedia

/-- A parsed `seasons_processed` JSON summary column of `unified_media`.
`JSON_EXTRACT(um.seasons_processed, '$.completed')` / `'$.total'` yield SQL
NULL when the path is absent, modelled as `none`.
(src/server/api/unified-media/[id].get.ts, lines 30-54.) -/
structure SeasonsProcessed where
  completed : Option Int
  total : Option Int
deriving DecidableEq

/-- One element of the `seasons_data` JSON array of a `unified_media` row;
every field is optional in the raw JSON
(src/server/api/unified-media/[id].get.ts, lines 101-116). -/
structure SeasonJson where
  season_number : Option Int
  episode_count : Option Int
  aired_episodes : Option Int
  confirmed_episodes : Option (List Int)
  failed_episodes : Option (List Int)
  unprocessed_episodes : Option (List Int)
  unaired_episodes : Option (List Int)
  is_discrepant : Option Bool
  status : Option String
deriving DecidableEq

/-- A season object as returned to the client after the `??` defaulting of
lines 101-116 of src/server/api/unified-media/[id].get.ts. -/
structure Season where
  season_number : Int
  episode_count : Int
  aired_episodes : Int
  confirmed_episodes : List Int
  failed_episodes : List Int
  unprocessed_episodes : List Int
  unaired_episodes : List Int
  is_discrepant : Bool
  status : String
deriving DecidableEq

/-- The `unified_media` row fields consulted by the detail query.
`seasons_processed = none` models SQL NULL; `seasons_data = none` models an
absent, unparseable or non-array `seasons_data` column (lines 86-95 replace
those with an empty list, which triggers the `tv_seasons` fallback). -/
structure MediaRow where
  media_type : String
  status : String
  seasons_processed : Option SeasonsProcessed
  seasons_data : Option (List SeasonJson)
deriving DecidableEq

/-- MySQL `ROUND` to an integer: round half away from zero. -/
def mysqlRound (q : ℚ) : ℤ :=
  if 0 ≤ q then ⌊q + 1 / 2⌋ else ⌈q - 1 / 2⌉

/-- The `progress_percentage` column computed by the SQL `CASE` expression of
src/server/api/unified-media/[id].get.ts, lines 43-54:
`ROUND((JSON_EXTRACT(seasons_processed, '$.completed') /
JSON_EXTRACT(seasons_processed, '$.total')) * 100)` for TV rows whose
`seasons_processed` and both extracted fields are non-NULL, `0` otherwise.
MySQL division by zero yields NULL (`none`), which `ROUND` propagates. -/
def progress_percentage (row : MediaRow) : Option ℤ :=
  if row.media_type = "tv" then
    match row.seasons_processed with
    | some sp =>
      match sp.completed, sp.total with
      | some c, some t =>
        if t = 0 then none else some (mysqlRound ((c : ℚ) / (t : ℚ) * 100))
      | _, _ => some 0
    | none => some 0
  else some 0

/-- The `??`-defaulting applied to one `seasons_data` element
(src/server/api/unified-media/[id].get.ts, lines 101-116). -/
def normalizeSeason (s : SeasonJson) : Season :=
  { season_number := s.season_number.getD 0
    episode_count := s.episode_count.getD 0
    aired_episodes := s.aired_episodes.getD 0
    confirmed_episodes := s.confirmed_episodes.getD []
    failed_episodes := s.failed_episodes.getD []
    unprocessed_episodes := s.unprocessed_episodes.getD []
    unaired_episodes := s.unaired_episodes.getD []
    is_discrepant := s.is_discrepant.getD false
    status := s.status.getD "unknown" }

/-- The `seasons` array attached to the returned media object
(src/server/api/unified-media/[id].get.ts, lines 98-188): for TV, prefer a
non-empty `seasons_data`, else fall back to the `tv_seasons` table rows
(supplied here as `tvSeasonsFallback`); non-TV media get no seasons. -/
def mediaSeasons (row : MediaRow) (tvSeasonsFallback : List Season) : List Season :=
  if row.media_type = "tv" then
    match row.seasons_data with
    | some l => if l.isEmpty then tvSeasonsFallback else l.map normalizeSeason
    | none => tvSeasonsFallback
  else []

/-- The progress formula as the claim states it (spec §4.1): total confirmed
episodes over total episode count summed across seasons, seasons with
`episode_count = 0` excluded from the denominator, rounded to nearest, `0`
when the denominator is `0`.  This definition follows the claim wording and
is compared against `progress_percentage`, which is translated from the SQL. -/
def claimedEpisodeProgress (seasons : List Season) : ℤ :=
  let confirmed : ℤ := (seasons.map (fun s => (s.confirmed_episodes.length : ℤ))).sum
  let total : ℤ := ((seasons.filter (fun s => decide (s.episode_count ≠ 0))).map
    (fun s => s.episode_count)).sum
  if total = 0 then 0 else mysqlRound ((confirmed : ℚ) / (total : ℚ) * 100)

/-- Stated from the amended claim: the reported progress is the rounded
percentage of the two scalar summary fields stored in `seasons_processed`,
`0` for non-TV rows or missing summary data, NULL when `total = 0`. -/
def seasonsProcessedSummaryProgress (row : MediaRow) : Option ℤ :=
  if row.media_type ≠ "tv" then some 0
  else
    match row.seasons_processed with
    | none => some 0
    | some sp =>
      match sp.completed, sp.total with
      | some c, some t =>
        if t = 0 then none else some (mysqlRound ((c : ℚ) / (t : ℚ) * 100))
      | _, _ => some 0

/-- A fully confirmed four-episode season. -/
def cexSeasonOne : SeasonJson :=
  { season_number := some 1
    episode_count := some 4
    aired_episodes := some 4
    confirmed_episodes := some [1, 2, 3, 4]
    failed_episodes := some []
    unprocessed_episodes := some []
    unaired_episodes := some []
    is_discrepant := some false
    status := some "completed" }

/-- A sixteen-episode season with no episode confirmed yet. -/
def cexSeasonTwo : SeasonJson :=
  { season_number := some 2
    episode_count := some 16
    aired_episodes := some 16
    confirmed_episodes := some []
    failed_episodes := some []
    unprocessed_episodes := some [1, 2, 3, 4, 5, 6, 7, 8, 9, 10, 11, 12, 13, 14, 15, 16]
    unaired_episodes := some []
    is_discrepant := some false
    status := some "processing" }

/-- The media row for the C1 counterexample: a coherent state in which 1 of
2 seasons is completed (`seasons_processed` summary) while 4 of the 20
episodes are confirmed (`seasons_data`). -/
def cexRow : MediaRow :=
  { media_type := "tv"
    status := "processing"
    seasons_processed := some { completed := some 1, total := some 2 }
    seasons_data := some [cexSeasonOne, cexSeasonTwo] }

end UnifiedMedia

namespace ProcessedMedia

/-- JavaScript `i.toString().padStart(2, '0')`: left-pad with zeros to two
characters. -/
def padStart2 (s : String) : String :=
  if s.length < 2 then String.mk (List.replicate (2 - s.length) '0') ++ s else s

/-- The formatted ordinal pushed by the loop body of `getUnairedEpisodes`
(src/pages/processed-media.vue, line 2066). -/
def episodeCode (i : Nat) : String :=
  "E" ++ padStart2 (toString i)

/-- The JavaScript `for (let i = aired + 1; i <= episodeCount; i++)` loop of
`getUnairedEpisodes` (src/pages/processed-media.vue, lines 2064-2067). -/
def unairedLoop (i c : Nat) : List String :=
  if i ≤ c then episodeCode i :: unairedLoop (i + 1) c else []
termination_by c + 1 - i

/-- A season as typed on the processed-media page; only the two counter
fields are consulted by `getUnairedEpisodes`. -/
structure Season where
  episode_count : Nat
  aired_episodes : Nat
deriving DecidableEq

/-- `getUnairedEpisodes` from src/pages/processed-media.vue, lines 2059-2069:
empty when `episode_count <= aired_episodes`, otherwise the formatted
ordinals from `aired_episodes + 1` up to `episode_count`. -/
def getUnairedEpisodes (s : Season) : List String :=
  if s.episode_count ≤ s.aired_episodes then []
  else unairedLoop (s.aired_episodes + 1) s.episode_count

/-- The pure status toggle computed by `toggleIgnoreStatus`
(src/pages/processed-media.vue, lines 2398-2399): the new status sent to the
server and installed on success. -/
def toggleIgnoreStatus (currentStatus : String) : String :=
  if currentStatus = "ignored" then "pending" else "ignored"

end ProcessedMedia

namespace QueueCard

/-- The fixed average per-item duration of `estimateWaitTime`
(src/unnamed/part_003, line 1045). -/
def avgMinutesPerItem : Nat := 7

/-- The numeric half of `estimateWaitTime` (src/unnamed/part_003, line
1046): `estimatedMinutes = queuePosition * avgMinutesPerItem`. -/
def estimatedWaitMinutes (queuePosition : Nat) : Nat :=
  queuePosition * avgMinutesPerItem

/-- The display formatting half of `estimateWaitTime`
(src/unnamed/part_003, lines 1048-1053). -/
def formatWaitMinutes (estimatedMinutes : Nat) : String :=
  if estimatedMinutes < 60 then toString estimatedMinutes ++ "m"
  else
    let hours := estimatedMinutes / 60
    let minutes := estimatedMinutes % 60
    if minutes > 0 then toString hours ++ "h " ++ toString minutes ++ "m"
    else toString hours ++ "h"

/-- `estimateWaitTime` from src/unnamed/part_003, lines 1044-1054.  Its only
call site in the repository is the queue-card template (line 250), which
renders the returned string for queued entries with index above zero. -/
def estimateWaitTime (queuePosition : Nat) : String :=
  formatWaitMinutes (estimatedWaitMinutes queuePosition)

end QueueCard

namespace ProcessingCurrent

/-- Outcome of the proxied `fetch` to the backend `/api/processing/current`
(src/unnamed/part_002): the response is OK and its JSON body parses
(`ok`), the body fails to parse (`okBadJson`), the response is non-OK
(`notOk`, which the handler turns into a thrown `Error` without a code), or
the fetch itself rejects with an error whose extracted code
(`error?.cause?.code || error?.code`) is `cause`. -/
inductive FetchOutcome (α : Type) where
  | ok (payload : α)
  | okBadJson
  | notOk (status : Nat)
  | netErr (cause : Option String)
deriving DecidableEq

/-- What the endpoint returns to its caller: either the backend JSON passed
through verbatim, or the safe `{ success, processing, message }` object. -/
inductive CurrentResult (α : Type) where
  | passthrough (payload : α)
  | safe (success : Bool) (processing : Bool) (message : String)
deriving DecidableEq

/-- The handler of src/unnamed/part_002, lines 1-36.  Every failure path is
caught: network errors with a connection-level code return the
"Backend not ready yet" safe response (lines 21-27), every other caught
error — including the `Error` thrown for a non-OK response, which carries no
code — returns the generic safe response (lines 29-34). -/
def currentProcessingHandler {α : Type} : FetchOutcome α → CurrentResult α
  | .ok payload => .passthrough payload
  | .okBadJson => .safe true false "Failed to get currently processing item"
  | .notOk _ => .safe true false "Failed to get currently processing item"
  | .netErr cause =>
    if cause = some "ECONNREFUSED" ∨ cause = some "ECONNRESET" ∨
        cause = some "ETIMEDOUT" then
      .safe true false "Backend not ready yet"
    else .safe true false "Failed to get currently processing item"

end ProcessingCurrent

namespace MarkComplete

/-- A JSON value as far as the mark-complete handler inspects one: `jNull`
models JSON null, `jArr` a JSON array (of episode numbers), the others the
remaining primitive shapes.  `Array.isArray` is true exactly for `jArr`, and
the strict comparison `=== false` / `!== false` matches exactly
`jBool false`. -/
inductive JValue where
  | jNull
  | jBool (b : Bool)
  | jNum (n : Int)
  | jStr (s : String)
  | jArr (xs : List Int)
deriving DecidableEq

/-- The request body fields read by the mark-complete handler
(src/server/api/media/[id]/mark-complete.post.ts, lines 11-21); each field
is absent (`none`) or an arbitrary JSON value. -/
structure Body where
  check_seerr : Option JValue
  season_number : Option JValue
  episode_numbers : Option JValue
deriving DecidableEq

/-- The payload forwarded to the Python backend
(src/server/api/media/[id]/mark-complete.post.ts, lines 15-21). -/
structure BackendBody where
  check_seerr : Bool
  season_number : Option JValue
  episode_numbers : Option JValue
deriving DecidableEq

/-- Lines 11-21 of src/server/api/media/[id]/mark-complete.post.ts:
`readBody(event).catch(() => ({}))` turns an unreadable or absent body into
`{}` (`none` here); `check_seerr = body.check_seerr !== false`;
`season_number` is copied when it is neither `undefined` nor `null`;
`episode_numbers` is copied when `Array.isArray` holds. -/
def buildBackendBody (body : Option Body) : BackendBody :=
  let b := body.getD { check_seerr := none, season_number := none, episode_numbers := none }
  let checkSeerr : Bool := b.check_seerr ≠ some (JValue.jBool false)
  let base : BackendBody :=
    { check_seerr := checkSeerr, season_number := none, episode_numbers := none }
  let withSeason : BackendBody :=
    match b.season_number with
    | none => base
    | some JValue.jNull => base
    | some v => { base with season_number := some v }
  match b.episode_numbers with
  | some (JValue.jArr xs) => { withSeason with episode_numbers := some (JValue.jArr xs) }
  | _ => withSeason

end MarkComplete

namespace BulkBackend

/-- The per-item result counts returned by the bulk endpoints and displayed
by the page (`results.success_count`, `results.failed_count`). -/
structure BulkResults where
  success_count : Nat
  failed_count : Nat
deriving DecidableEq

/-- Modelled from the spec: the bulk endpoints behind
`/api/retrigger-media-bulk` (POST) and `/api/unified-media-bulk`
(PUT, DELETE) are not in the repository snapshot, only their callers in
src/pages/processed-media.vue are.  Per the spec (§7), each item of the
batch succeeds or fails independently — the batch is never aborted on a
failing item — and the result reports per-item success/failure counts.
`outcome` abstracts whether processing an individual id succeeds. -/
def runBulkOperation : List Nat → (Nat → Bool) → BulkResults
  | [], _ => { success_count := 0, failed_count := 0 }
  | i :: rest, outcome =>
    let r := runBulkOperation rest outcome
    if outcome i then { r with success_count := r.success_count + 1 }
    else { r with failed_count := r.failed_count + 1 }

/-- Modelled from the spec: the response `status` field the page checks is
`completed` when every item succeeded and `partial` otherwise. -/
def bulkStatus (r : BulkResults) : String :=
  if r.failed_count = 0 then "completed" else "partial"

end BulkBackend

namespace ProcessedMedia

/-- The operator-visible notification derived from a bulk response. -/
inductive BulkAlert where
  | withErrors (successCount failedCount : Nat)
  | allOk (successCount : Nat)
  | unhandled
deriving DecidableEq

/-- The response handling of `bulkRetriggerMedia`
(src/pages/processed-media.vue, lines 2838-2851): when the response status
is `completed` or `partial`, alert with both per-item counts if any item
failed, else alert with the success count; other responses show nothing
here. -/
def bulkRetriggerResponseAlert (status : String) (r : BulkBackend.BulkResults) :
    BulkAlert :=
  if status == "completed" || status == "partial" then
    if r.failed_count > 0 then .withErrors r.success_count r.failed_count
    else .allOk r.success_count
  else .unhandled

/-- A media list item as consulted by the bulk actions of
src/pages/processed-media.vue: its id and its lifecycle status fields. -/
structure PMItem where
  id : Nat
  display_status : Option String
  status : String
deriving DecidableEq

/-- The JavaScript expression `item.display_status || item.status` (an absent
or empty `display_status` is falsy and falls back to `status`). -/
def effectiveStatus (it : PMItem) : String :=
  match it.display_status with
  | some s => if s = "" then it.status else s
  | none => it.status

/-- The `selectedItems` binding of `bulkRetriggerMedia`
(src/pages/processed-media.vue, line 2787). -/
def selectedItemsOf (selectedIds : List Nat) (items : List PMItem) : List PMItem :=
  items.filter (fun it => selectedIds.contains it.id)

/-- The `ignorableItems` binding of `bulkRetriggerMedia`
(src/pages/processed-media.vue, lines 2790-2793): the selected items whose
effective status is `ignored`. -/
def ignorableItemsOf (selectedIds : List Nat) (items : List PMItem) : List PMItem :=
  (selectedItemsOf selectedIds items).filter (fun it => effectiveStatus it == "ignored")

/-- The `mediaIdsArray` binding of `bulkRetriggerMedia`
(src/pages/processed-media.vue, lines 2819-2824): the selected ids whose
item exists and is not ignored. -/
def retriggerIdsOf (selectedIds : List Nat) (items : List PMItem) : List Nat :=
  selectedIds.filter (fun i =>
    match (selectedItemsOf selectedIds items).find? (fun it => it.id == i) with
    | none => false
    | some it => effectiveStatus it != "ignored")

/-- The id-selection logic of `bulkRetriggerMedia`
(src/pages/processed-media.vue, lines 2784-2836): `none` means no bulk
re-trigger request is issued (empty selection, an operator cancel in either
confirm dialog, or the "all selected items are ignored" alert at lines
2826-2829); `some ids` means a request with exactly `ids` is sent. -/
def bulkRetriggerMedia (selectedIds : List Nat) (items : List PMItem)
    (confirmSkipIgnored confirmMain : Bool) : Option (List Nat) :=
  if selectedIds.isEmpty then none
  else if (ignorableItemsOf selectedIds items).length > 0 && !confirmSkipIgnored then none
  else if !confirmMain then none
  else if (retriggerIdsOf selectedIds items).isEmpty then none
  else some (retriggerIdsOf selectedIds items)

/-- An ignored media item for witness instantiations. -/
def witIgnoredItem : PMItem :=
  { id := 1, display_status := none, status := "ignored" }

/-- A pending media item for witness instantiations. -/
def witPendingItem : PMItem :=
  { id := 2, display_status := some "pending", status := "completed" }

/-- A two-item media list for witness instantiations. -/
def witItems : List PMItem := [witIgnoredItem, witPendingItem]

end ProcessedMedia

namespace OverseerrReq

/-- A `media` object as inspected by the request handler: only its tmdb id
spellings matter for the list-fallback match
(src/server/api/overseerr-request.post.ts, lines 113-117). -/
structure MediaInfo where
  tmdbId : Option Int
  tmdb_id : Option Int
deriving DecidableEq

/-- A `request` object: its id, its `media`, and whether it carries a
`requestedBy` object. -/
structure ReqInfo where
  id : Option Int
  media : Option MediaInfo
  requestedBy : Bool
deriving DecidableEq

/-- The optional nested `data` object of a response
(`data.data?.id`, `data.data?.request`, `data.data?.media`). -/
structure InnerData where
  id : Option Int
  request : Option ReqInfo
  media : Option MediaInfo
deriving DecidableEq

/-- An Overseerr/Jellyseerr JSON response as far as the handler inspects it
(src/server/api/overseerr-request.post.ts, lines 78-101).  `requestedBy`
covers the access `requestInfo?.requestedBy` when the whole response object
itself is used as the request info (line 80, final `?? data`). -/
structure RespData where
  id : Option Int
  request : Option ReqInfo
  requestId : Option Int
  media : Option MediaInfo
  data : Option InnerData
  requestedBy : Bool
deriving DecidableEq

/-- JavaScript truthiness of a possibly-absent number: `undefined`, `null`
and `0` are falsy. -/
def jsTruthy : Option Int → Bool
  | none => false
  | some n => n != 0

/-- Line 78: `data.id ?? data.request?.id ?? data.requestId ?? data.data?.id
?? data.data?.request?.id` (nullish coalescing: only `null`/`undefined`
moves to the next alternative). -/
def extractRequestId (d : RespData) : Option Int :=
  d.id <|> (d.request.bind ReqInfo.id) <|> d.requestId <|>
    (d.data.bind InnerData.id) <|> ((d.data.bind InnerData.request).bind ReqInfo.id)

/-- Line 79: `data.media ?? data.request?.media ?? data.data?.media ??
data.data?.request?.media`. -/
def extractMediaInfo (d : RespData) : Option MediaInfo :=
  d.media <|> (d.request.bind ReqInfo.media) <|> (d.data.bind InnerData.media) <|>
    ((d.data.bind InnerData.request).bind ReqInfo.media)

/-- Line 80 combined with the access on line 84: `requestInfo = data.request
?? data.data?.request ?? data`, then `requestInfo?.requestedBy`. -/
def requestInfoRequestedBy (d : RespData) : Bool :=
  match d.request with
  | some r => r.requestedBy
  | none =>
    match d.data.bind InnerData.request with
    | some r => r.requestedBy
    | none => d.requestedBy

/-- One entry of the recent-request listing; `media ?? itself` supplies the
tmdb id (lines 113-117), and `id`/`media` feed the fallback assignment
(lines 119-121). -/
structure ListItem where
  id : Option Int
  media : Option MediaInfo
  tmdbId : Option Int
  tmdb_id : Option Int
deriving DecidableEq

/-- The JSON body of the request-listing response, before the
`listData.results ?? listData` and `Array.isArray` handling of
lines 111-112. -/
inductive ListJson where
  | withResults (results : List ListItem)
  | plainArray (items : List ListItem)
  | nonArray
deriving DecidableEq

/-- Lines 111-112: `results = listData.results ?? listData`, then
`Array.isArray(results) ? results : []`. -/
def requestsOf : ListJson → List ListItem
  | .withResults rs => rs
  | .plainArray rs => rs
  | .nonArray => []

/-- Line 114-115: `const m = r.media ?? r; const tid = m.tmdbId ??
m.tmdb_id`. -/
def itemTid (r : ListItem) : Option Int :=
  match r.media with
  | some m => m.tmdbId <|> m.tmdb_id
  | none => r.tmdbId <|> r.tmdb_id

/-- The value finally bound to `finalMediaInfo`: either a media object or
(via line 120's final `?? match`) a whole list item. -/
inductive MediaLike where
  | info (m : MediaInfo)
  | item (r : ListItem)
deriving DecidableEq

/-- The external world of the correlation phase: the single-request detail
fetch (line 86; `none` models a network failure or a non-OK response, in
which case `fullRequestData` keeps its previous value), the recent-request
listing fetch (line 106; `none` likewise), and whether the fire-and-forget
webhook delivery (lines 155-164) would succeed. -/
structure World where
  requestDetails : Int → Option RespData
  requestList : Option ListJson
  webhookOk : Bool

/-- Line 84's condition: `requestId && (!mediaInfo || !requestInfo?.requestedBy)`
— the single-request re-fetch is attempted only under it. -/
def tryFetchById (d : RespData) : Bool :=
  jsTruthy (extractRequestId d) &&
    ((extractMediaInfo d).isNone || !(requestInfoRequestedBy d))

/-- Lines 83-97: `fullRequestData` is the re-fetched request JSON when the
re-fetch was attempted and came back OK, else the original response. -/
def fullRequestDataOf (d : RespData) (w : World) : RespData :=
  if tryFetchById d then
    match extractRequestId d with
    | some rid => (w.requestDetails rid).getD d
    | none => d
  else d

/-- Line 100: `finalMediaInfo = fullRequestData.media ??
fullRequestData.request?.media ?? mediaInfo`, before the list fallback. -/
def preListMediaInfo (d : RespData) (w : World) : Option MediaLike :=
  ((fullRequestDataOf d w).media.map MediaLike.info) <|>
    (((fullRequestDataOf d w).request.bind ReqInfo.media).map MediaLike.info) <|>
    ((extractMediaInfo d).map MediaLike.info)

/-- Line 104's condition: `(!requestId || !finalMediaInfo) && mediaId` — the
recent-request listing is attempted only under it. -/
def tryFetchList (mediaId : Int) (d : RespData) (w : World) : Bool :=
  ((!(jsTruthy (extractRequestId d))) || (preListMediaInfo d w).isNone) &&
    (mediaId != 0)

/-- Lines 106-117: the matching entry of the recent-request listing, when
the listing was attempted, came back OK, and contains an entry whose tmdb id
equals the requested media id. -/
def listMatchOf (mediaId : Int) (d : RespData) (w : World) : Option ListItem :=
  if tryFetchList mediaId d w then
    match w.requestList with
    | some lj => (requestsOf lj).find? (fun r => itemTid r == some mediaId)
    | none => none
  else none

/-- Line 119: `requestId = requestId ?? match.id`. -/
def finalRequestIdOf (mediaId : Int) (d : RespData) (w : World) : Option Int :=
  match listMatchOf mediaId d w with
  | some m => extractRequestId d <|> m.id
  | none => extractRequestId d

/-- Line 120: `finalMediaInfo = finalMediaInfo ?? match.media ?? match`. -/
def finalMediaInfoOf (mediaId : Int) (d : RespData) (w : World) : Option MediaLike :=
  match listMatchOf mediaId d w with
  | some m => preListMediaInfo d w <|> (m.media.map MediaLike.info) <|>
      some (MediaLike.item m)
  | none => preListMediaInfo d w

/-- The observable trace of the correlation-and-notify phase (lines 76-171):
which best-effort external calls were attempted, whether the webhook was
invoked (line 129's `requestId && finalMediaInfo` guard) or the
missing-identifiers warning was logged instead (line 166), whether a
delivery succeeded, and the final correlation values. -/
structure Trace where
  fetchedById : Bool
  fetchedList : Bool
  webhookCalled : Bool
  warnedMissing : Bool
  webhookDelivered : Bool
  finalRequestId : Option Int
  finalMediaPresent : Bool
deriving DecidableEq

/-- The correlation phase of src/server/api/overseerr-request.post.ts,
lines 76-171, run after a successful upstream request creation. -/
def correlateAndNotify (mediaId : Int) (d : RespData) (w : World) : Trace :=
  { fetchedById := tryFetchById d
    fetchedList := tryFetchList mediaId d w
    webhookCalled := jsTruthy (finalRequestIdOf mediaId d w) &&
      (finalMediaInfoOf mediaId d w).isSome
    warnedMissing := !(jsTruthy (finalRequestIdOf mediaId d w) &&
      (finalMediaInfoOf mediaId d w).isSome)
    webhookDelivered := (jsTruthy (finalRequestIdOf mediaId d w) &&
      (finalMediaInfoOf mediaId d w).isSome) && w.webhookOk
    finalRequestId := finalRequestIdOf mediaId d w
    finalMediaPresent := (finalMediaInfoOf mediaId d w).isSome }

/-- JavaScript truthiness of a possibly-absent string: `undefined`, `null`
and the empty string are falsy. -/
def strTruthy : Option String → Bool
  | none => false
  | some s => s != ""

/-- The request body fields read on line 6. -/
structure ReqBody where
  mediaId : Option Int
  mediaType : Option String
  seasons : Option (List Int)
deriving DecidableEq

/-- The Overseerr configuration (line 16). -/
structure OvConfig where
  baseUrl : Option String
  apiKey : Option String
deriving DecidableEq

/-- Outcome of the upstream `POST /api/v1/request` (lines 51-69): the fetch
or the JSON parse threw, the response was non-OK, or it succeeded with a
parsed body. -/
inductive UpstreamOutcome where
  | threw
  | notOk (status : Nat)
  | ok (data : RespData)
deriving DecidableEq

/-- The handler's returned object, collapsed to the fields common to all
return sites of src/server/api/overseerr-request.post.ts. -/
structure HandlerResult where
  success : Bool
  error : Option String
  message : Option String
  dataEcho : Option RespData
deriving DecidableEq

/-- The trace of a run that never reaches the correlation phase. -/
def emptyTrace : Trace :=
  { fetchedById := false
    fetchedList := false
    webhookCalled := false
    warnedMissing := false
    webhookDelivered := false
    finalRequestId := none
    finalMediaPresent := false }

/-- The full handler of src/server/api/overseerr-request.post.ts: body
validation (lines 5-13), configuration checks (lines 16-30), the upstream
request (lines 51-67), the correlation-and-notify phase (lines 76-171) and
the final success return (lines 173-177); the outer catch (lines 179-186)
covers a thrown `readBody` (`body = none`) and a thrown upstream fetch. -/
def overseerrRequestHandler (body : Option ReqBody) (cfg : Option OvConfig)
    (upstream : UpstreamOutcome) (w : World) : HandlerResult × Trace :=
  match body with
  | none =>
    ({ success := false, error := some "Failed to create request",
       message := none, dataEcho := none }, emptyTrace)
  | some b =>
    if !(jsTruthy b.mediaId && strTruthy b.mediaType) then
      ({ success := false,
         error := some "Missing required parameters: mediaId and mediaType",
         message := none, dataEcho := none }, emptyTrace)
    else
      match cfg with
      | none =>
        ({ success := false, error := some "Failed to create request",
           message := none, dataEcho := none }, emptyTrace)
      | some c =>
        if !(strTruthy c.baseUrl) then
          ({ success := false, error := some "Overseerr base URL not configured",
             message := none, dataEcho := none }, emptyTrace)
        else if !(strTruthy c.apiKey) then
          ({ success := false, error := some "Overseerr API key not configured",
             message := none, dataEcho := none }, emptyTrace)
        else
          match upstream with
          | .threw =>
            ({ success := false, error := some "Failed to create request",
               message := none, dataEcho := none }, emptyTrace)
          | .notOk _ =>
            ({ success := false, error := some "Overseerr API error",
               message := none, dataEcho := none }, emptyTrace)
          | .ok d =>
            ({ success := true, error := none,
               message := some "Request created successfully", dataEcho := some d },
             correlateAndNotify (b.mediaId.getD 0) d w)

/-- A response carrying no request id, no media info and no nested data:
the immediate acknowledgment shape of "add a season to an existing show". -/
def bareResp : RespData :=
  { id := none, request := none, requestId := none, media := none,
    data := none, requestedBy := false }

/-- A world in which both correlation fetches fail. -/
def failingWorld : World :=
  { requestDetails := fun _ => none, requestList := none, webhookOk := false }

/-- A valid request body for witness instantiations. -/
def witReqBody : ReqBody :=
  { mediaId := some 5, mediaType := some "movie", seasons := none }

/-- A configured Overseerr connection for witness instantiations. -/
def witCfg : OvConfig :=
  { baseUrl := some "http://overseerr", apiKey := some "key" }

/-- A world in which correlation fetches fail but webhook delivery works. -/
def okWebhookWorld : World :=
  { requestDetails := fun _ => none, requestList := none, webhookOk := true }

end OverseerrReq

namespace ProcessedMedia

/-- The loop enumerates exactly the formatted ordinals `i .. c`. -/
theorem unairedLoop_eq_range (i c : Nat) :
    unairedLoop i c = (List.range' i (c + 1 - i)).map episodeCode := by
  induction i, c using unairedLoop.induct with
  | case1 i c h ih =>
    rw [unairedLoop, if_pos h]
    have hc : c + 1 - i = (c + 1 - (i + 1)) + 1 := by omega
    rw [hc, List.range'_succ, List.map_cons, ih]
  | case2 i c h =>
    rw [unairedLoop, if_neg h]
    have hc : c + 1 - i = 0 := by omega
    rw [hc]
    rfl

end ProcessedMedia

namespace BulkBackend

/-- `runBulkOperation` counts the successful items. -/
theorem runBulkOperation_success_count (ids : List Nat) (outcome : Nat → Bool) :
    (runBulkOperation ids outcome).success_count = (ids.filter outcome).length := by
  induction ids with
  | nil => rfl
  | cons i rest ih =>
    rw [runBulkOperation]
    cases h : outcome i <;> simp [h, ih, List.filter_cons]

/-- `runBulkOperation` counts the failing items. -/
theorem runBulkOperation_failed_count (ids : List Nat) (outcome : Nat → Bool) :
    (runBulkOperation ids outcome).failed_count =
      (ids.filter (fun i => !(outcome i))).length := by
  induction ids with
  | nil => rfl
  | cons i rest ih =>
    rw [runBulkOperation]
    cases h : outcome i <;> simp [h, ih, List.filter_cons]

end BulkBackend

/-- Claim C1: the reported `progress_percentage` of the unified-media detail
query would equal the episode-based formula (confirmed episodes over total
episode count across seasons).  It does not: on `cexRow` the SQL computes
`ROUND(1/2*100) = 50` from the `seasons_processed` summary while the
episode-based formula over the same row's seasons (4 confirmed of 20
episodes) gives `20`. -/
theorem progress_percentage_episode_formula_counterexample :
    UnifiedMedia.progress_percentage UnifiedMedia.cexRow = some 50 ∧
    UnifiedMedia.claimedEpisodeProgress
      (UnifiedMedia.mediaSeasons UnifiedMedia.cexRow []) = 20 ∧
    (50 : ℤ) ≠ 20 := by
  refine ⟨?_, ?_, by norm_num⟩
  · rw [UnifiedMedia.progress_percentage]
    norm_num [UnifiedMedia.cexRow, UnifiedMedia.mysqlRound]
  · rw [UnifiedMedia.claimedEpisodeProgress]
    norm_num [UnifiedMedia.cexRow, UnifiedMedia.mediaSeasons,
      UnifiedMedia.normalizeSeason, UnifiedMedia.cexSeasonOne,
      UnifiedMedia.cexSeasonTwo, UnifiedMedia.mysqlRound]

/-- Claim C1 (amended): for every media row, the reported
`progress_percentage` equals the rounded percentage of the stored
`seasons_processed` summary fields (`completed` over `total`), `0` for
non-TV rows or missing summary fields, and SQL NULL when `total = 0`. -/
theorem progress_percentage_from_seasons_processed_summary
    (row : UnifiedMedia.MediaRow) :
    UnifiedMedia.progress_percentage row =
      UnifiedMedia.seasonsProcessedSummaryProgress row := by
  rw [UnifiedMedia.progress_percentage, UnifiedMedia.seasonsProcessedSummaryProgress]
  by_cases h : row.media_type = "tv" <;> simp [h]
  cases row.seasons_processed <;> rfl

/-- Claim C5: the unaired-episode list shown to the operator is derived from
the two counters alone: it is the formatted ordinals `{a+1, ..., c}` (for
`aired_episodes = a`, `episode_count = c`), where that ordinal range is
characterized exactly and is empty whenever `c ≤ a` (the range has length
`c - a`, which is `0` in ℕ when `c ≤ a`). -/
theorem unaired_episodes_is_derived_range (s : ProcessedMedia.Season) :
    ProcessedMedia.getUnairedEpisodes s =
      (List.range' (s.aired_episodes + 1) (s.episode_count - s.aired_episodes)).map
        ProcessedMedia.episodeCode ∧
    ∀ n : Nat,
      n ∈ List.range' (s.aired_episodes + 1) (s.episode_count - s.aired_episodes) ↔
        s.aired_episodes + 1 ≤ n ∧ n ≤ s.episode_count := by
  constructor
  · rw [ProcessedMedia.getUnairedEpisodes]
    by_cases h : s.episode_count ≤ s.aired_episodes
    · rw [if_pos h]
      have hc : s.episode_count - s.aired_episodes = 0 := by omega
      rw [hc]
      rfl
    · rw [if_neg h, ProcessedMedia.unairedLoop_eq_range]
      have hc : s.episode_count + 1 - (s.aired_episodes + 1) =
          s.episode_count - s.aired_episodes := by omega
      rw [hc]
  · intro n
    rw [List.mem_range'_1]
    omega

/-- Claim C7: toggling the ignore flag maps `ignored` to `pending` and every
other status to `ignored`; no other value is produced. -/
theorem toggle_ignore_status_mapping :
    ProcessedMedia.toggleIgnoreStatus "ignored" = "pending" ∧
    (∀ s : String, s ≠ "ignored" → ProcessedMedia.toggleIgnoreStatus s = "ignored") ∧
    (∀ s : String, ProcessedMedia.toggleIgnoreStatus s = "pending" ∨
      ProcessedMedia.toggleIgnoreStatus s = "ignored") := by
  refine ⟨rfl, fun s hs => ?_, fun s => ?_⟩
  · rw [ProcessedMedia.toggleIgnoreStatus, if_neg hs]
  · rw [ProcessedMedia.toggleIgnoreStatus]
    by_cases h : s = "ignored"
    · rw [if_pos h]
      exact Or.inl rfl
    · rw [if_neg h]
      exact Or.inr rfl

/-- Witness for C7 at the concrete status `completed`. -/
theorem toggle_ignore_status_mapping_witness :
    ProcessedMedia.toggleIgnoreStatus "completed" = "ignored" :=
  toggle_ignore_status_mapping.2.1 "completed" (by decide)

/-- Claim C8: the displayed estimated wait for a queued entry at position `n`
is the display formatting of `n` times the fixed average per-item duration:
the underlying minute count is exactly linear in the queue position (slope
`avgMinutesPerItem`, intercept `0`), and the estimate is produced as a
formatted string only. -/
theorem estimate_wait_time_linear (n : Nat) :
    QueueCard.estimateWaitTime n =
      QueueCard.formatWaitMinutes (n * QueueCard.avgMinutesPerItem) ∧
    QueueCard.estimatedWaitMinutes n = n * QueueCard.avgMinutesPerItem ∧
    QueueCard.estimatedWaitMinutes (n + 1) =
      QueueCard.estimatedWaitMinutes n + QueueCard.avgMinutesPerItem ∧
    QueueCard.estimatedWaitMinutes 0 = 0 := by
  refine ⟨rfl, rfl, ?_, rfl⟩
  rw [QueueCard.estimatedWaitMinutes, QueueCard.estimatedWaitMinutes]
  ring

/-- Claim C9: the dashboard currently-processing proxy is total on errors:
for every outcome other than an OK backend response with parseable JSON —
connection refused, reset, timeout, any other network error, an unreadable
body, or a non-OK response — it returns the safe
`{ success: true, processing: false }` object with one of the two
explanatory messages, and (being a total function into `CurrentResult`)
never propagates an error to its caller. -/
theorem current_processing_total_on_errors {α : Type}
    (o : ProcessingCurrent.FetchOutcome α)
    (h : ∀ p : α, o ≠ ProcessingCurrent.FetchOutcome.ok p) :
    ∃ m : String,
      ProcessingCurrent.currentProcessingHandler o =
        ProcessingCurrent.CurrentResult.safe true false m ∧
      (m = "Backend not ready yet" ∨
        m = "Failed to get currently processing item") := by
  cases o with
  | ok p => exact absurd rfl (h p)
  | okBadJson => exact ⟨_, rfl, Or.inr rfl⟩
  | notOk s => exact ⟨_, rfl, Or.inr rfl⟩
  | netErr cause =>
    rw [ProcessingCurrent.currentProcessingHandler]
    by_cases hc : cause = some "ECONNREFUSED" ∨ cause = some "ECONNRESET" ∨
        cause = some "ETIMEDOUT"
    · rw [if_pos hc]
      exact ⟨_, rfl, Or.inl rfl⟩
    · rw [if_neg hc]
      exact ⟨_, rfl, Or.inr rfl⟩

/-- Witness for C9 at the concrete outcome "connection refused". -/
theorem current_processing_total_on_errors_witness :
    ∃ m : String,
      ProcessingCurrent.currentProcessingHandler
          (ProcessingCurrent.FetchOutcome.netErr (α := Unit) (some "ECONNREFUSED")) =
        ProcessingCurrent.CurrentResult.safe true false m ∧
      (m = "Backend not ready yet" ∨
        m = "Failed to get currently processing item") :=
  current_processing_total_on_errors
    (ProcessingCurrent.FetchOutcome.netErr (α := Unit) (some "ECONNREFUSED"))
    (by intro p h; cases h)

/-- Claim C10: the mark-complete endpoint defaults `check_seerr` to `true`
unless the body explicitly carries the boolean `false` (an absent or
unreadable body yields `true`); `season_number` is forwarded exactly when it
is present and neither undefined nor null; `episode_numbers` is forwarded
exactly when it is a JSON array. -/
theorem mark_complete_body_defaults (body : Option MarkComplete.Body) :
    ((MarkComplete.buildBackendBody body).check_seerr = false ↔
      ∃ b : MarkComplete.Body, body = some b ∧
        b.check_seerr = some (MarkComplete.JValue.jBool false)) ∧
    (MarkComplete.buildBackendBody none).check_seerr = true ∧
    (∀ v : MarkComplete.JValue,
      (MarkComplete.buildBackendBody body).season_number = some v ↔
        ∃ b : MarkComplete.Body, body = some b ∧ b.season_number = some v ∧
          v ≠ MarkComplete.JValue.jNull) ∧
    (∀ v : MarkComplete.JValue,
      (MarkComplete.buildBackendBody body).episode_numbers = some v ↔
        ∃ b : MarkComplete.Body, ∃ xs : List Int, body = some b ∧
          b.episode_numbers = some (MarkComplete.JValue.jArr xs) ∧
          v = MarkComplete.JValue.jArr xs) := by
  refine ⟨?_, rfl, ?_, ?_⟩
  · cases body with
    | none => simp [MarkComplete.buildBackendBody]
    | some b =>
      simp only [MarkComplete.buildBackendBody, Option.getD_some]
      constructor
      · intro h
        refine ⟨b, rfl, ?_⟩
        by_contra hne
        rcases hb : b.episode_numbers with _ | v <;>
          rcases hs : b.season_number with _ | w <;>
            simp_all [MarkComplete.buildBackendBody] <;>
          (try cases v) <;> (try cases w) <;> simp_all
      · rintro ⟨b', hb', hcs⟩
        cases hb'
        rcases hb : b.episode_numbers with _ | v <;>
          rcases hs : b.season_number with _ | w <;>
            simp_all <;> (try cases v) <;> (try cases w) <;> simp_all
  · intro v
    cases body with
    | none => simp [MarkComplete.buildBackendBody]
    | some b =>
      simp only [MarkComplete.buildBackendBody, Option.getD_some]
      rcases hb : b.episode_numbers with _ | u <;>
        rcases hs : b.season_number with _ | w <;>
          (try cases u) <;> (try cases w) <;> simp_all
      all_goals (rintro rfl; simp)
  · intro v
    cases body with
    | none => simp [MarkComplete.buildBackendBody]
    | some b =>
      simp only [MarkComplete.buildBackendBody, Option.getD_some]
      rcases hb : b.episode_numbers with _ | u <;>
        rcases hs : b.season_number with _ | w <;>
          (try cases u) <;> (try cases w) <;> simp_all
      all_goals exact eq_comm

/-- Claim C4: a bulk operation processes every item independently — the
success and failure counts always sum to the batch size, the counts are
exactly the per-item successes and failures, and the page reports both
counts to the user (the error alert when any item failed, the success
alert otherwise) rather than aborting on the first error. -/
theorem bulk_operations_report_per_item_counts (ids : List Nat)
    (outcome : Nat → Bool) :
    (BulkBackend.runBulkOperation ids outcome).success_count =
      (ids.filter outcome).length ∧
    (BulkBackend.runBulkOperation ids outcome).failed_count =
      (ids.filter (fun i => !(outcome i))).length ∧
    (BulkBackend.runBulkOperation ids outcome).success_count +
      (BulkBackend.runBulkOperation ids outcome).failed_count = ids.length ∧
    ProcessedMedia.bulkRetriggerResponseAlert
        (BulkBackend.bulkStatus (BulkBackend.runBulkOperation ids outcome))
        (BulkBackend.runBulkOperation ids outcome) =
      (if (BulkBackend.runBulkOperation ids outcome).failed_count = 0 then
        ProcessedMedia.BulkAlert.allOk
          (BulkBackend.runBulkOperation ids outcome).success_count
      else
        ProcessedMedia.BulkAlert.withErrors
          (BulkBackend.runBulkOperation ids outcome).success_count
          (BulkBackend.runBulkOperation ids outcome).failed_count) := by
  refine ⟨BulkBackend.runBulkOperation_success_count ids outcome,
    BulkBackend.runBulkOperation_failed_count ids outcome, ?_, ?_⟩
  · rw [BulkBackend.runBulkOperation_success_count,
      BulkBackend.runBulkOperation_failed_count]
    induction ids with
    | nil => rfl
    | cons i rest ih =>
      cases h : outcome i <;> simp [List.filter_cons, h] <;> omega
  · rw [BulkBackend.bulkStatus, ProcessedMedia.bulkRetriggerResponseAlert]
    by_cases h : (BulkBackend.runBulkOperation ids outcome).failed_count = 0 <;>
      simp [h]

/-- Claim C6: in every bulk re-trigger, a selected record whose effective
status is `ignored` never appears in the posted id set (assuming the media
list has no duplicate ids), and when every selected record is ignored no
re-trigger request is issued at all. -/
theorem bulk_retrigger_excludes_ignored (selectedIds : List Nat)
    (items : List ProcessedMedia.PMItem) (c1 c2 : Bool) :
    (∀ ids : List Nat,
      ProcessedMedia.bulkRetriggerMedia selectedIds items c1 c2 = some ids →
      items.Pairwise (fun a b => a.id ≠ b.id) →
      ∀ it : ProcessedMedia.PMItem, it ∈ items →
        selectedIds.contains it.id = true →
        ProcessedMedia.effectiveStatus it = "ignored" → it.id ∉ ids) ∧
    ((∀ it : ProcessedMedia.PMItem, it ∈ items →
        selectedIds.contains it.id = true →
        ProcessedMedia.effectiveStatus it = "ignored") →
      ProcessedMedia.bulkRetriggerMedia selectedIds items c1 c2 = none) := by
  constructor
  · intro ids hres hnodup it hmem hsel hign hinids
    rw [ProcessedMedia.bulkRetriggerMedia] at hres
    split at hres
    · exact Option.noConfusion hres
    split at hres
    · exact Option.noConfusion hres
    split at hres
    · exact Option.noConfusion hres
    split at hres
    · exact Option.noConfusion hres
    rcases Option.some.inj hres with rfl
    rw [ProcessedMedia.retriggerIdsOf] at hinids
    rcases List.mem_filter.mp hinids with ⟨-, hp⟩
    rcases hfind : List.find? (fun x => x.id == it.id)
        (ProcessedMedia.selectedItemsOf selectedIds items) with _ | x
    · rw [hfind] at hp
      exact Bool.noConfusion hp
    · rw [hfind] at hp
      simp only [bne_iff_ne, ne_eq, decide_eq_true_eq] at hp
      have hxid : x.id = it.id := by
        simpa using List.find?_some hfind
      have hxmem : x ∈ items := by
        have hx := List.mem_of_find?_eq_some hfind
        rw [ProcessedMedia.selectedItemsOf] at hx
        exact (List.mem_filter.mp hx).1
      have hsymm : Symmetric (fun a b : ProcessedMedia.PMItem => a.id ≠ b.id) :=
        fun a b hab h => hab h.symm
      have hxit : x = it := by
        by_contra hne
        exact List.Pairwise.forall hsymm hnodup hxmem hmem hne hxid
      rw [hxit] at hp
      exact hp hign
  · intro hall
    rw [ProcessedMedia.bulkRetriggerMedia]
    split
    · rfl
    split
    · rfl
    split
    · rfl
    have hempty : ProcessedMedia.retriggerIdsOf selectedIds items = [] := by
      rw [ProcessedMedia.retriggerIdsOf]
      apply List.filter_eq_nil_iff.mpr
      intro i hi
      rcases hfind : List.find? (fun it => it.id == i)
          (ProcessedMedia.selectedItemsOf selectedIds items) with _ | x
      · simp [hfind]
      · rcases List.mem_filter.mp (List.mem_of_find?_eq_some hfind) with
          ⟨hxmem, hxsel⟩
        simp [hfind, hall x hxmem hxsel]
    rw [if_pos]
    rw [hempty]
    rfl

/-- Witness for C6: with an ignored item (id 1) and a pending item (id 2)
both selected, the posted id set is exactly `[2]` and the ignored id is
excluded. -/
theorem bulk_retrigger_excludes_ignored_witness :
    ProcessedMedia.bulkRetriggerMedia [1, 2] ProcessedMedia.witItems true true =
      some [2] ∧
    ProcessedMedia.witIgnoredItem.id ∉ ([2] : List Nat) :=
  ⟨by decide,
    (bulk_retrigger_excludes_ignored [1, 2] ProcessedMedia.witItems true true).1
      [2] (by decide) (by decide) ProcessedMedia.witIgnoredItem (by decide)
      (by decide) (by decide)⟩

/-- Claim C2 counterexample: on a response that lacks the request id (and
the media info), with the recent-request listing failing, the handler does
NOT attempt both fallbacks — the re-fetch-by-id fallback is impossible
without an id and is skipped, so "attempts exactly two fallbacks" is false
for this input. -/
theorem correlation_two_fallbacks_counterexample :
    ¬ ((OverseerrReq.extractRequestId OverseerrReq.bareResp = none ∨
        OverseerrReq.extractMediaInfo OverseerrReq.bareResp = none) →
      (OverseerrReq.correlateAndNotify 5 OverseerrReq.bareResp
          OverseerrReq.failingWorld).fetchedById = true ∧
      (OverseerrReq.correlateAndNotify 5 OverseerrReq.bareResp
          OverseerrReq.failingWorld).fetchedList = true) := by
  decide

/-- Claim C2 (amended): the correlation fallbacks are best-effort and
conditional: the single-request re-fetch is attempted only when the
immediate response carries a request id; when it carries none, only the
recent-request listing fallback is attempted; when the id is present but
media info is absent the re-fetch is attempted; and whenever the fallbacks
leave the request id or media info missing the handler logs the warning and
skips the webhook, while a successful correlation implies both identifiers
were found. -/
theorem correlation_fallbacks_best_effort (mediaId : Int)
    (d : OverseerrReq.RespData) (w : OverseerrReq.World) (hm : mediaId ≠ 0) :
    ((OverseerrReq.correlateAndNotify mediaId d w).fetchedById = true →
      OverseerrReq.jsTruthy (OverseerrReq.extractRequestId d) = true) ∧
    (OverseerrReq.jsTruthy (OverseerrReq.extractRequestId d) = false →
      (OverseerrReq.correlateAndNotify mediaId d w).fetchedById = false ∧
      (OverseerrReq.correlateAndNotify mediaId d w).fetchedList = true) ∧
    (OverseerrReq.jsTruthy (OverseerrReq.extractRequestId d) = true →
      OverseerrReq.extractMediaInfo d = none →
      (OverseerrReq.correlateAndNotify mediaId d w).fetchedById = true) ∧
    ((OverseerrReq.correlateAndNotify mediaId d w).webhookCalled = false →
      (OverseerrReq.correlateAndNotify mediaId d w).warnedMissing = true) ∧
    ((OverseerrReq.correlateAndNotify mediaId d w).webhookCalled = true →
      OverseerrReq.jsTruthy
        (OverseerrReq.correlateAndNotify mediaId d w).finalRequestId = true ∧
      (OverseerrReq.correlateAndNotify mediaId d w).finalMediaPresent = true) := by
  refine ⟨?_, ?_, ?_, ?_, ?_⟩
  · intro h
    replace h : OverseerrReq.tryFetchById d = true := h
    rw [OverseerrReq.tryFetchById, Bool.and_eq_true] at h
    exact h.1
  · intro h
    constructor
    · show OverseerrReq.tryFetchById d = false
      rw [OverseerrReq.tryFetchById, h, Bool.false_and]
    · show OverseerrReq.tryFetchList mediaId d w = true
      rw [OverseerrReq.tryFetchList, h]
      simp [bne_iff_ne, hm]
  · intro h1 h2
    show OverseerrReq.tryFetchById d = true
    rw [OverseerrReq.tryFetchById, h1, h2]
    simp
  · intro h
    replace h : (OverseerrReq.jsTruthy (OverseerrReq.finalRequestIdOf mediaId d w) &&
        (OverseerrReq.finalMediaInfoOf mediaId d w).isSome) = false := h
    show (!(OverseerrReq.jsTruthy (OverseerrReq.finalRequestIdOf mediaId d w) &&
        (OverseerrReq.finalMediaInfoOf mediaId d w).isSome)) = true
    rw [h]
    rfl
  · intro h
    replace h : (OverseerrReq.jsTruthy (OverseerrReq.finalRequestIdOf mediaId d w) &&
        (OverseerrReq.finalMediaInfoOf mediaId d w).isSome) = true := h
    rw [Bool.and_eq_true] at h
    exact h

/-- Witness for the amended C2 at the concrete bare response and failing
world. -/
theorem correlation_fallbacks_best_effort_witness :
    (5 : Int) ≠ 0 ∧
    (OverseerrReq.jsTruthy
        (OverseerrReq.extractRequestId OverseerrReq.bareResp) = false →
      (OverseerrReq.correlateAndNotify 5 OverseerrReq.bareResp
          OverseerrReq.failingWorld).fetchedById = false ∧
      (OverseerrReq.correlateAndNotify 5 OverseerrReq.bareResp
          OverseerrReq.failingWorld).fetchedList = true) :=
  ⟨by decide,
    (correlation_fallbacks_best_effort 5 OverseerrReq.bareResp
      OverseerrReq.failingWorld (by decide)).2.1⟩

/-- Claim C3: once the upstream Overseerr request has succeeded, the
handler's returned result is success and is identical across every external
world — failures of the correlation re-fetch, the request listing, or the
fire-and-forget webhook delivery are absorbed and never reach the caller. -/
theorem request_creation_result_independent_of_side_effects
    (b : OverseerrReq.ReqBody) (c : OverseerrReq.OvConfig)
    (d : OverseerrReq.RespData) (w w' : OverseerrReq.World)
    (h1 : OverseerrReq.jsTruthy b.mediaId = true)
    (h2 : OverseerrReq.strTruthy b.mediaType = true)
    (h3 : OverseerrReq.strTruthy c.baseUrl = true)
    (h4 : OverseerrReq.strTruthy c.apiKey = true) :
    (OverseerrReq.overseerrRequestHandler (some b) (some c)
        (OverseerrReq.UpstreamOutcome.ok d) w).1.success = true ∧
    (OverseerrReq.overseerrRequestHandler (some b) (some c)
        (OverseerrReq.UpstreamOutcome.ok d) w).1 =
      (OverseerrReq.overseerrRequestHandler (some b) (some c)
        (OverseerrReq.UpstreamOutcome.ok d) w').1 := by
  rw [OverseerrReq.overseerrRequestHandler, OverseerrReq.overseerrRequestHandler]
  rw [h1, h2, h3, h4]
  exact ⟨rfl, rfl⟩

/-- Witness for C3: concrete valid body and configuration, one world where
every external call fails and one where webhook delivery succeeds. -/
theorem request_creation_result_independent_of_side_effects_witness :
    OverseerrReq.jsTruthy OverseerrReq.witReqBody.mediaId = true ∧
    OverseerrReq.strTruthy OverseerrReq.witReqBody.mediaType = true ∧
    OverseerrReq.strTruthy OverseerrReq.witCfg.baseUrl = true ∧
    OverseerrReq.strTruthy OverseerrReq.witCfg.apiKey = true ∧
    (OverseerrReq.overseerrRequestHandler (some OverseerrReq.witReqBody)
        (some OverseerrReq.witCfg)
        (OverseerrReq.UpstreamOutcome.ok OverseerrReq.bareResp)
        OverseerrReq.failingWorld).1.success = true :=
  ⟨by decide, by decide, by decide, by decide,
    (request_creation_result_independent_of_side_effects
      OverseerrReq.witReqBody OverseerrReq.witCfg OverseerrReq.bareResp
      OverseerrReq.failingWorld OverseerrReq.okWebhookWorld
      (by decide) (by decide) (by decide) (by decide)).1⟩
